import Mathlib

/-!
cri-o server: image pull and sandbox stop.

A shallow embedding of `server/image_pull.go`, `server/sandbox_network.go` and
`server/sandbox_stop.go`, with theorems about the pull deduplication, the
docker auth decoding and the sandbox teardown sequence.

Modelling conventions:

* A Go `string` that is inspected byte by byte (`decodeDockerAuth`) is a list of
  bytes (`GoString`); identifiers that are only compared or passed on are Lean
  strings.
* Every external collaborator (image store, network plugin, hostport manager,
  OCI runtime, storage, label and mount utilities) is a field of `Collab W`:
  a transition on an abstract world state `W` returning the call's answer, so
  that a collaborator may answer differently on each call.
* Every operation returns a `Run`: its result, the world reached and the list
  of collaborator calls it made, in order, each with the answer it got.
* Calls to `logrus` are not modelled.
-/

namespace Crio

/-! ## Errors -/

/-- The Go `error` values the three files create, compare with or pass on. -/
inductive Err where
  /-- The sentinel `errSandboxIDEmpty`. -/
  | errSandboxIDEmpty
  /-- The sentinel `storage.ErrContainerUnknown`. -/
  | errContainerUnknown
  /-- A `base64.CorruptInputError` (the offset it carries is not modelled). -/
  | corruptInput
  /-- Any other error returned by a collaborator, identified by a code. -/
  | other (code : Nat)
  /-- The value of `fmt.Errorf(format, args...)` with string arguments only. -/
  | errorf (format : String) (args : List String)
  /-- The value of `fmt.Errorf(format, args..., cause)`, whose last verb prints
  the error `cause`. -/
  | errorfCause (format : String) (args : List String) (cause : Err)
  deriving DecidableEq

/-! ## Byte strings and the library functions used by `decodeDockerAuth` -/

/-- A byte. -/
abbrev Byte := Fin 256

/-- A Go string: a sequence of bytes. -/
abbrev GoString := List Byte

/-- The byte `':'`. -/
def colon : Byte := 58

/-- The byte `'='`, the padding character of `base64.StdEncoding`. -/
def padChar : Byte := 61

/-- The NUL byte. -/
def nul : Byte := 0

/-- The character of the standard base64 alphabet
`A-Z a-z 0-9 + /` at index `i` (for `i < 64`). -/
def encodeChar (i : Nat) : Byte :=
  if i < 26 then Fin.ofNat (65 + i)
  else if i < 52 then Fin.ofNat (97 + (i - 26))
  else if i < 62 then Fin.ofNat (48 + (i - 52))
  else if i = 62 then 43
  else 47

/-- The index of a character in the standard base64 alphabet, if it is one. -/
def decodeChar (c : Byte) : Option Nat :=
  if 65 ≤ c.val ∧ c.val ≤ 90 then some (c.val - 65)
  else if 97 ≤ c.val ∧ c.val ≤ 122 then some (c.val - 97 + 26)
  else if 48 ≤ c.val ∧ c.val ≤ 57 then some (c.val - 48 + 52)
  else if c.val = 43 then some 62
  else if c.val = 47 then some 63
  else none

/-- Go `base64.StdEncoding.EncodeToString`: three bytes become four characters,
a final group of one or two bytes is padded with `'='`. -/
def EncodeToString : GoString → GoString
  | [] => []
  | [a] => [encodeChar (a.val / 4), encodeChar (a.val % 4 * 16), padChar, padChar]
  | [a, b] =>
    [encodeChar (a.val / 4), encodeChar (a.val % 4 * 16 + b.val / 16),
     encodeChar (b.val % 16 * 4), padChar]
  | a :: b :: c :: rest =>
    encodeChar (a.val / 4) :: encodeChar (a.val % 4 * 16 + b.val / 16) ::
      encodeChar (b.val % 16 * 4 + c.val / 64) :: encodeChar (c.val % 64) ::
      EncodeToString rest

/-- The last quantum of a base64 text: `xx==`, `xxx=` or `xxxx`. The unused low
bits of a padded quantum are not checked (the encoding is not strict). -/
def decodeLast (a b c d : Byte) : Except Err GoString :=
  match decodeChar a, decodeChar b with
  | some i0, some i1 =>
    if c = padChar then
      if d = padChar then .ok [Fin.ofNat (i0 * 4 + i1 / 16)] else .error .corruptInput
    else
      match decodeChar c with
      | none => .error .corruptInput
      | some i2 =>
        if d = padChar then
          .ok [Fin.ofNat (i0 * 4 + i1 / 16), Fin.ofNat (i1 % 16 * 16 + i2 / 4)]
        else
          match decodeChar d with
          | none => .error .corruptInput
          | some i3 =>
            .ok [Fin.ofNat (i0 * 4 + i1 / 16), Fin.ofNat (i1 % 16 * 16 + i2 / 4),
                 Fin.ofNat (i2 % 4 * 64 + i3)]
  | _, _ => .error .corruptInput

/-- The quanta of a base64 text from which line breaks have been removed:
every quantum is four alphabet characters, only the last one may be padded. -/
def decodeQuanta : GoString → Except Err GoString
  | [] => .ok []
  | a :: b :: c :: d :: rest =>
    if rest = [] then decodeLast a b c d
    else
      match decodeChar a, decodeChar b, decodeChar c, decodeChar d with
      | some i0, some i1, some i2, some i3 =>
        match decodeQuanta rest with
        | .error e => .error e
        | .ok tail =>
          .ok (Fin.ofNat (i0 * 4 + i1 / 16) :: Fin.ofNat (i1 % 16 * 16 + i2 / 4) ::
                Fin.ofNat (i2 % 4 * 64 + i3) :: tail)
      | _, _, _, _ => .error .corruptInput
  | _ => .error .corruptInput

/-- Go `base64.StdEncoding.DecodeString`: carriage returns and line feeds are
ignored, the rest is decoded quantum by quantum. -/
def DecodeString (s : GoString) : Except Err GoString :=
  decodeQuanta (s.filter (fun c => c ≠ 10 ∧ c ≠ 13))

/-- Go `strings.SplitN(s, sep, n)` for a one-byte separator and `n ≥ 0`: at most
`n` substrings, the last one being the unsplit remainder. -/
def SplitN (s : GoString) (sep : Byte) : Nat → List GoString
  | 0 => []
  | 1 => [s]
  | n + 2 =>
    match s.span (fun c => c ≠ sep) with
    | (before, []) => [before]
    | (before, _ :: after) => before :: SplitN after sep (n + 1)

/-- Go `strings.Trim(s, cutset)` for a cutset of one byte: the leading and the
trailing occurrences of that byte are removed. -/
def Trim (s : GoString) (cut : Byte) : GoString :=
  (s.dropWhile (fun c => c = cut)).rdropWhile (fun c => c = cut)

/-! ## `image_pull.go`: `decodeDockerAuth` -/

/-- The function `decodeDockerAuth` of `image_pull.go`: the user name, the password and the
error. -/
def decodeDockerAuth (s : GoString) : GoString × GoString × Option Err :=
  match DecodeString s with
  | .error err => ([], [], some err)
  | .ok decoded =>
    match SplitN decoded colon 2 with
    | [user, rest] =>
      let password := Trim rest nul
      (user, password, none)
    | _ =>
      -- if it's invalid just skip, as docker does
      ([], [], none)

/-! ## Data model -/

/-- Decidable equality of Go `(value, error)` results. -/
instance exceptDecEq {ε α : Type} [DecidableEq ε] [DecidableEq α] : DecidableEq (Except ε α) :=
  fun a b =>
    match a, b with
    | .ok x, .ok y =>
      if h : x = y then isTrue (by rw [h]) else isFalse (fun e => h (by cases e; rfl))
    | .error x, .error y =>
      if h : x = y then isTrue (by rw [h]) else isFalse (fun e => h (by cases e; rfl))
    | .ok _, .error _ => isFalse (fun e => by cases e)
    | .error _, .ok _ => isFalse (fun e => by cases e)

/-- An `oci.Container`, as far as the stop sequence looks at it: `ID()` and
`Name()`. -/
structure Container where
  id : String
  name : String
  deriving DecidableEq

/-- A `hostport.PortMapping`. -/
structure PortMapping where
  containerPort : Nat
  hostPort : Nat
  protocol : String
  deriving DecidableEq

/-- A `hostport.PodPortMapping` with the fields the server sets; `ip` is `none`
when the field is left unset. -/
structure PodPortMapping where
  name : String
  portMappings : List PortMapping
  ip : Option (List Byte)
  hostNetwork : Bool
  deriving DecidableEq

/-- The server's `sandbox`. `netNsPath` is the value of `NetNsPath()` (empty in
host-network mode), `ns` is the field `namespace` and `containers` is the value
of `containers.List()`. -/
structure Sandbox where
  id : String
  name : String
  ns : String
  kubeName : String
  netNsPath : String
  portMappings : List PortMapping
  processLabel : String
  shmPath : String
  infraContainer : Container
  containers : List Container
  deriving DecidableEq

/-- The part of `Server` the three files read: the bind address and the sandbox
store `state.sandboxes`, a map from IDs to sandboxes given by the list of its
values in iteration order. -/
structure Server where
  bindAddress : String
  sandboxes : List Sandbox
  deriving DecidableEq

/-- A `pb.ImageSpec`. -/
structure ImageSpec where
  image : String
  deriving DecidableEq

/-- A `pb.AuthConfig`. -/
structure AuthConfig where
  username : GoString
  password : GoString
  auth : GoString
  deriving DecidableEq

/-- A `pb.PullImageRequest`; `GetImage()` and `GetAuth()` may be nil. -/
structure PullImageRequest where
  image : Option ImageSpec
  auth : Option AuthConfig
  deriving DecidableEq

/-- A `pb.PullImageResponse`. -/
structure PullImageResponse where
  imageRef : String
  deriving DecidableEq

/-- A `types.DockerAuthConfig`. -/
structure DockerAuthConfig where
  username : GoString
  password : GoString
  deriving DecidableEq

/-- A `types.SystemContext`. -/
structure SystemContext where
  dockerAuthConfig : Option DockerAuthConfig
  deriving DecidableEq

/-- A `copy.Options`. -/
structure CopyOptions where
  sourceCtx : SystemContext
  deriving DecidableEq

/-- A `storage.ImageResult`. -/
structure ImageResult where
  id : String
  configDigest : String
  deriving DecidableEq

/-- A prepared `types.Image`: the digest string of its `ConfigInfo()`. -/
structure PreparedImage where
  configInfoDigest : String
  deriving DecidableEq

/-- A `pb.StopPodSandboxRequest`. -/
structure StopPodSandboxRequest where
  podSandboxId : String
  deriving DecidableEq

/-- A `pb.StopPodSandboxResponse` (it has no fields). -/
structure StopPodSandboxResponse where
  deriving DecidableEq

/-- The constant `oci.ContainerStateStopped`. -/
def ContainerStateStopped : String := "stopped"

/-- The constant `unix.MNT_DETACH`. -/
def MNT_DETACH : Nat := 2

/-! ## Collaborator calls -/

/-- A call to a collaborator, with its arguments and the answer it gave. -/
inductive Event where
  | canPull (image : String) (options : CopyOptions) (allowed : Bool) (err : Option Err)
  | imageStatus (image : String) (res : Except Err ImageResult)
  | prepareImage (image : String) (options : CopyOptions) (res : Except Err PreparedImage)
  | pullImage (image : String) (options : CopyOptions) (res : Except Err String)
  | setUpPod (netNsPath ns kubeName id : String) (err : Option Err)
  | getContainerNetworkStatus (netNsPath ns id name : String) (res : Except Err String)
  | tearDownPod (netNsPath ns kubeName id : String) (err : Option Err)
  | hostportAdd (id : String) (mapping : PodPortMapping) (iface : String) (err : Option Err)
  | hostportRemove (id : String) (mapping : PodPortMapping) (err : Option Err)
  | netNsRemove (sandboxId : String) (err : Option Err)
  | updateStatus (c : Container) (err : Option Err)
  | containerStatus (c : Container) (status : String)
  | runtimeStopContainer (c : Container) (timeout : Int) (err : Option Err)
  | storageStopContainer (id : String) (err : Option Err)
  | containerStateToDisk (c : Container)
  | releaseLabel (label : String) (err : Option Err)
  | followSymlinkInScope (path root : String) (res : Except Err String)
  | mounted (path : String) (isMounted : Bool) (err : Option Err)
  | unmount (path : String) (flags : Nat) (err : Option Err)
  deriving DecidableEq

/-- The outcome of running an operation: its result, the world it leaves and
the collaborator calls it made, in order. -/
structure Run (W : Type) (α : Type) where
  result : α
  world : W
  trace : List Event

/-- The collaborators of the server over a world state `W`. Each call takes the
current world and returns its answer and the next world. `parseIPv4` is
`net.ParseIP(ip).To4()`, `none` standing for nil. -/
structure Collab (W : Type) where
  canPull : W → String → CopyOptions → (Bool × Option Err) × W
  imageStatus : W → String → Except Err ImageResult × W
  prepareImage : W → String → CopyOptions → Except Err PreparedImage × W
  pullImage : W → String → CopyOptions → Except Err String × W
  setUpPod : W → String → String → String → String → Option Err × W
  getContainerNetworkStatus : W → String → String → String → String → Except Err String × W
  tearDownPod : W → String → String → String → String → Option Err × W
  hostportAdd : W → String → PodPortMapping → String → Option Err × W
  hostportRemove : W → String → PodPortMapping → Option Err × W
  parseIPv4 : String → Option (List Byte)
  netNsRemove : W → Sandbox → Option Err × W
  updateStatus : W → Container → Option Err × W
  containerStatus : W → Container → String
  runtimeStopContainer : W → Container → Int → Option Err × W
  storageStopContainer : W → String → Option Err × W
  containerStateToDisk : W → Container → W
  releaseLabel : W → String → Option Err × W
  followSymlinkInScope : W → String → String → Except Err String × W
  mounted : W → String → (Bool × Option Err) × W
  unmount : W → String → Nat → Option Err × W

/-! ## `image_pull.go`: `PullImage` -/

/-- The image reference of a request: `img.Image`, or the empty string when the
request has no image. -/
def requestImage (req : PullImageRequest) : String :=
  match req.image with
  | some img => img.image
  | none => ""

/-- The user name, the password and the decoding error of a request's auth
config. -/
def requestCredentials (req : PullImageRequest) : GoString × GoString × Option Err :=
  match req.auth with
  | none => ([], [], none)
  | some auth =>
    if auth.auth ≠ [] then decodeDockerAuth auth.auth
    else (auth.username, auth.password, none)

/-- The copy options of a pull: the credentials are attached only when the user
name is not empty. -/
def pullOptions (username password : GoString) : CopyOptions :=
  if username ≠ [] then
    { sourceCtx := { dockerAuthConfig := some { username := username, password := password } } }
  else
    { sourceCtx := { dockerAuthConfig := none } }

/-- The end of `Server.PullImage`: the pull itself and the response. `pre` is
the list of calls made before. -/
def pullAndRespond {W : Type} (k : Collab W) (image : String) (options : CopyOptions)
    (pre : List Event) (w : W) : Run W (Except Err PullImageResponse) :=
  match k.pullImage w image options with
  | (.error err, w1) =>
    { result := .error err, world := w1, trace := pre ++ [.pullImage image options (.error err)] }
  | (.ok ref, w1) =>
    { result := .ok { imageRef := image }, world := w1,
      trace := pre ++ [.pullImage image options (.ok ref)] }

/-- The method `Server.PullImage` of `image_pull.go`. -/
def PullImage {W : Type} (k : Collab W) (req : PullImageRequest) (w : W) :
    Run W (Except Err PullImageResponse) :=
  let image := requestImage req
  match requestCredentials req with
  | (_, _, some err) => { result := .error err, world := w, trace := [] }
  | (username, password, none) =>
    let options := pullOptions username password
    match k.canPull w image options with
    | ((canPull, gateErr), w1) =>
      let gate := Event.canPull image options canPull gateErr
      match gateErr, canPull with
      | some err, false => { result := .error err, world := w1, trace := [gate] }
      | _, _ =>
        -- let's be smart, docker doesn't repull if image already exists.
        match k.imageStatus w1 image with
        | (.error err, w2) =>
          pullAndRespond k image options [gate, .imageStatus image (.error err)] w2
        | (.ok storedImage, w2) =>
          match k.prepareImage w2 image options with
          | (.error err, w3) =>
            pullAndRespond k image options
              [gate, .imageStatus image (.ok storedImage),
               .prepareImage image options (.error err)] w3
          | (.ok tmpImg, w3) =>
            let calls := [gate, .imageStatus image (.ok storedImage),
              .prepareImage image options (.ok tmpImg)]
            if tmpImg.configInfoDigest = "" then
              -- a schema1 image: repull in any case
              pullAndRespond k image options calls w3
            else if tmpImg.configInfoDigest = storedImage.configDigest then
              { result := .ok { imageRef := image }, world := w3, trace := calls }
            else
              pullAndRespond k image options calls w3

/-! ## `sandbox_network.go` -/

/-- The method `Server.networkStart` of `sandbox_network.go`. The `ip` returned at the end
is the variable declared before the `if`; the `ip, err := ...` inside the block
declares another one (`podIP` here). -/
def networkStart {W : Type} (k : Collab W) (s : Server) (hostNetwork : Bool) (sb : Sandbox)
    (w : W) : Run W (Except Err String) :=
  if hostNetwork then { result := .ok s.bindAddress, world := w, trace := [] }
  else
    match k.setUpPod w sb.netNsPath sb.ns sb.kubeName sb.id with
    | (some err, w1) =>
      { result := .error (.errorfCause
          "failed to create network for container %s in sandbox %s: %v" [sb.name, sb.id] err),
        world := w1,
        trace := [.setUpPod sb.netNsPath sb.ns sb.kubeName sb.id (some err)] }
    | (none, w1) =>
      let setUp := Event.setUpPod sb.netNsPath sb.ns sb.kubeName sb.id none
      let ip : String := ""
      if sb.portMappings.length ≠ 0 then
        match k.getContainerNetworkStatus w1 sb.netNsPath sb.ns sb.id sb.name with
        | (.error err, w2) =>
          { result := .error (.errorfCause
              "failed to get network status for container %s in sandbox %s: %v"
              [sb.name, sb.id] err),
            world := w2,
            trace := [setUp,
              .getContainerNetworkStatus sb.netNsPath sb.ns sb.id sb.name (.error err)] }
        | (.ok podIP, w2) =>
          let status := Event.getContainerNetworkStatus sb.netNsPath sb.ns sb.id sb.name (.ok podIP)
          match k.parseIPv4 podIP with
          | none =>
            { result := .error (.errorf
                "failed to get valid ipv4 address for container %s in sandbox %s"
                [sb.name, sb.id]),
              world := w2, trace := [setUp, status] }
          | some ip4 =>
            let mapping : PodPortMapping :=
              { name := sb.name, portMappings := sb.portMappings, ip := some ip4,
                hostNetwork := false }
            match k.hostportAdd w2 sb.id mapping "lo" with
            | (some err, w3) =>
              { result := .error (.errorfCause
                  "failed to add hostport mapping for container %s in sandbox %s: %v"
                  [sb.name, sb.id] err),
                world := w3,
                trace := [setUp, status, .hostportAdd sb.id mapping "lo" (some err)] }
            | (none, w3) =>
              { result := .ok ip, world := w3,
                trace := [setUp, status, .hostportAdd sb.id mapping "lo" none] }
      else
        { result := .ok ip, world := w1, trace := [setUp] }

/-- The method `Server.networkStop` of `sandbox_network.go`; the result is the returned
`error`. -/
def networkStop {W : Type} (k : Collab W) (hostNetwork : Bool) (sb : Sandbox) (w : W) :
    Run W (Option Err) :=
  if ¬ hostNetwork then
    let mapping : PodPortMapping :=
      { name := sb.name, portMappings := sb.portMappings, ip := none, hostNetwork := false }
    match k.hostportRemove w sb.id mapping with
    | (err2, w1) =>
      match k.tearDownPod w1 sb.netNsPath sb.ns sb.kubeName sb.id with
      | (err3, w2) =>
        { result := none, world := w2,
          trace := [.hostportRemove sb.id mapping err2,
            .tearDownPod sb.netNsPath sb.ns sb.kubeName sb.id err3] }
  else
    { result := none, world := w, trace := [] }

/-! ## `sandbox_stop.go` -/

/-- Modelled from the spec: `Server.getPodSandboxFromRequest`, which is not in
the three files. An empty ID fails with the sentinel `errSandboxIDEmpty`; an ID
that is not in the live state fails with another error; otherwise the sandbox
stored under the ID is returned. -/
def getPodSandboxFromRequest (s : Server) (podSandboxId : String) : Except Err Sandbox :=
  if podSandboxId = "" then .error .errSandboxIDEmpty
  else
    match s.sandboxes.find? (fun sb => sb.id = podSandboxId) with
    | some sb => .ok sb
    | none => .error (.errorf "specified sandbox not found: %s" [podSandboxId])

/-- The collection `StopPodSandbox` iterates over: `sb.containers.List()` with
the infra container appended. -/
def containersToStop (sb : Sandbox) : List Container :=
  sb.containers ++ [sb.infraContainer]

/-- The `for _, c := range containers` loop of `StopPodSandbox`; the result is
the error the loop returns with, `none` when it runs to its end. -/
def stopContainers {W : Type} (k : Collab W) (sb : Sandbox) (podInfraContainer : Container) :
    List Container → W → Run W (Option Err)
  | [], w => { result := none, world := w, trace := [] }
  | c :: rest, w =>
    match k.updateStatus w c with
    | (some err, w1) => { result := some err, world := w1, trace := [.updateStatus c (some err)] }
    | (none, w1) =>
      let cStatus := k.containerStatus w1 c
      let pre := [Event.updateStatus c none, Event.containerStatus c cStatus]
      if cStatus ≠ ContainerStateStopped then
        match k.runtimeStopContainer w1 c (-1) with
        | (some err, w2) =>
          { result := some (.errorfCause "failed to stop container %s in pod sandbox %s: %v"
              [c.name, sb.id] err),
            world := w2, trace := pre ++ [.runtimeStopContainer c (-1) (some err)] }
        | (none, w2) =>
          if c.id = podInfraContainer.id then
            -- continue
            let next := stopContainers k sb podInfraContainer rest w2
            { result := next.result, world := next.world,
              trace := pre ++ [.runtimeStopContainer c (-1) none] ++ next.trace }
          else
            match k.storageStopContainer w2 c.id with
            | (serr, w3) =>
              -- an error is only logged
              let w4 := k.containerStateToDisk w3 c
              let next := stopContainers k sb podInfraContainer rest w4
              { result := next.result, world := next.world,
                trace := pre ++ [.runtimeStopContainer c (-1) none,
                  .storageStopContainer c.id serr, .containerStateToDisk c] ++ next.trace }
      else
        let w2 := k.containerStateToDisk w1 c
        let next := stopContainers k sb podInfraContainer rest w2
        { result := next.result, world := next.world,
          trace := pre ++ [.containerStateToDisk c] ++ next.trace }

/-- The shared memory block of `StopPodSandbox`: the unmount of `shmPath` when
it is not `/dev/shm`; the result is the error the block returns with. -/
def unmountShm {W : Type} (k : Collab W) (sb : Sandbox) (w : W) : Run W (Option Err) :=
  if sb.shmPath ≠ "/dev/shm" then
    match k.followSymlinkInScope w sb.shmPath "/" with
    | (.error err, w1) =>
      { result := some err, world := w1,
        trace := [.followSymlinkInScope sb.shmPath "/" (.error err)] }
    | (.ok fp, w1) =>
      match k.mounted w1 fp with
      | ((isMounted, merr), w2) =>
        let pre := [Event.followSymlinkInScope sb.shmPath "/" (.ok fp),
          Event.mounted fp isMounted merr]
        if merr = none ∧ isMounted = true then
          match k.unmount w2 fp MNT_DETACH with
          | (some err, w3) =>
            { result := some err, world := w3, trace := pre ++ [.unmount fp MNT_DETACH (some err)] }
          | (none, w3) =>
            { result := none, world := w3, trace := pre ++ [.unmount fp MNT_DETACH none] }
        else
          { result := none, world := w2, trace := pre }
  else
    { result := none, world := w, trace := [] }

/-- The method `Server.StopPodSandbox` of `sandbox_stop.go`. -/
def StopPodSandbox {W : Type} (k : Collab W) (s : Server) (req : StopPodSandboxRequest)
    (w : W) : Run W (Except Err StopPodSandboxResponse) :=
  match getPodSandboxFromRequest s req.podSandboxId with
  | .error err =>
    if err = .errSandboxIDEmpty then { result := .error err, world := w, trace := [] }
    else
      -- the sandbox isn't found: an empty response
      { result := .ok {}, world := w, trace := [] }
  | .ok sb =>
    -- Clean up sandbox networking and close its network namespace.
    let hostNetwork : Bool := sb.netNsPath = ""
    let net := networkStop k hostNetwork sb w
    match k.netNsRemove net.world sb with
    | (some err, w1) =>
      { result := .error err, world := w1, trace := net.trace ++ [.netNsRemove sb.id (some err)] }
    | (none, w1) =>
      let pre1 := net.trace ++ [.netNsRemove sb.id none]
      let podInfraContainer := sb.infraContainer
      let containers := containersToStop sb
      let loop := stopContainers k sb podInfraContainer containers w1
      match loop.result with
      | some err => { result := .error err, world := loop.world, trace := pre1 ++ loop.trace }
      | none =>
        match k.releaseLabel loop.world sb.processLabel with
        | (some err, w2) =>
          { result := .error err, world := w2,
            trace := pre1 ++ loop.trace ++ [.releaseLabel sb.processLabel (some err)] }
        | (none, w2) =>
          let pre2 := pre1 ++ loop.trace ++ [.releaseLabel sb.processLabel none]
          -- unmount the shm for the pod
          let shm := unmountShm k sb w2
          match shm.result with
          | some err => { result := .error err, world := shm.world, trace := pre2 ++ shm.trace }
          | none =>
            match k.storageStopContainer shm.world sb.id with
            | (serr, w3) =>
              -- an error is only logged
              { result := .ok {}, world := w3,
                trace := pre2 ++ shm.trace ++ [.storageStopContainer sb.id serr] }

/-- A call of `StopPodSandbox` made by `StopAllPodSandboxes`: the sandbox ID of
the request and what the call returned. -/
structure StopCall where
  podSandboxId : String
  result : Except Err StopPodSandboxResponse
  deriving DecidableEq

/-- The `for _, sb := range s.state.sandboxes` loop of `StopAllPodSandboxes`.
The result lists the `StopPodSandbox` calls made, in order. -/
def stopAllLoop {W : Type} (k : Collab W) (s : Server) : List Sandbox → W → Run W (List StopCall)
  | [], w => { result := [], world := w, trace := [] }
  | sb :: rest, w =>
    let pod : StopPodSandboxRequest := { podSandboxId := sb.id }
    let call := StopPodSandbox k s pod w
    -- an error of the call is only logged
    let next := stopAllLoop k s rest call.world
    { result := { podSandboxId := pod.podSandboxId, result := call.result } :: next.result,
      world := next.world, trace := call.trace ++ next.trace }

/-- The method `Server.StopAllPodSandboxes` of `sandbox_stop.go`. The Go function returns
nothing; the result here is the list of the `StopPodSandbox` calls it made. -/
def StopAllPodSandboxes {W : Type} (k : Collab W) (s : Server) (w : W) :
    Run W (List StopCall) :=
  stopAllLoop k s s.sandboxes w

/-! ## Concrete collaborators for examples -/

/-- Collaborators without state that always succeed: every image has the config
digest `"sha256:d"`, every container is reported as `status`, every address
parses as `10.0.0.5`, nothing is mounted. -/
def calm (status : String) : Collab Unit where
  canPull := fun w _ _ => ((true, none), w)
  imageStatus := fun w _ => (.ok { id := "img", configDigest := "sha256:d" }, w)
  prepareImage := fun w _ _ => (.ok { configInfoDigest := "sha256:d" }, w)
  pullImage := fun w image _ => (.ok image, w)
  setUpPod := fun w _ _ _ _ => (none, w)
  getContainerNetworkStatus := fun w _ _ _ _ => (.ok "10.0.0.5", w)
  tearDownPod := fun w _ _ _ _ => (none, w)
  hostportAdd := fun w _ _ _ => (none, w)
  hostportRemove := fun w _ _ => (none, w)
  parseIPv4 := fun _ => some [10, 0, 0, 5]
  netNsRemove := fun w _ => (none, w)
  updateStatus := fun w _ => (none, w)
  containerStatus := fun _ _ => status
  runtimeStopContainer := fun w _ _ => (none, w)
  storageStopContainer := fun w _ => (none, w)
  containerStateToDisk := fun w _ => w
  releaseLabel := fun w _ => (none, w)
  followSymlinkInScope := fun w path _ => (.ok path, w)
  mounted := fun w _ => ((false, none), w)
  unmount := fun w _ _ => (none, w)

/-- The infra container of the example sandbox. -/
def infraC : Container := { id := "pod1", name := "k8s_POD_pod1" }

/-- A regular container of the example sandbox. -/
def appC : Container := { id := "ctr1", name := "k8s_app_pod1" }

/-- An example sandbox with one port mapping, a network namespace, the default
shared memory path and one regular container. -/
def pod1 : Sandbox :=
  { id := "pod1", name := "k8s_POD_pod1", ns := "default", kubeName := "pod1",
    netNsPath := "/var/run/netns/pod1",
    portMappings := [{ containerPort := 80, hostPort := 8080, protocol := "tcp" }],
    processLabel := "system_u:system_r:svirt_lxc_net_t:s0:c1,c2", shmPath := "/dev/shm",
    infraContainer := infraC, containers := [appC] }

/-- The server of the examples: it knows `pod1` only. -/
def server1 : Server := { bindAddress := "127.0.0.1", sandboxes := [pod1] }

/-- A sandbox whose container list already holds its infra container. -/
def pod2 : Sandbox := { pod1 with containers := [infraC, appC] }

/-- A pull request for `busybox` without credentials. -/
def pullBusybox : PullImageRequest := { image := some { image := "busybox" }, auth := none }

/-- The copy options of a pull without credentials. -/
def noAuth : CopyOptions := { sourceCtx := { dockerAuthConfig := none } }

/-- An image store holding schema1 images: the stored image and the prepared
image both have an empty config digest, and the pull fails with error 7. -/
def schema1Store : Collab Unit :=
  { calm "running" with
    imageStatus := fun w _ => (.ok { id := "img", configDigest := "" }, w)
    prepareImage := fun w _ _ => (.ok { configInfoDigest := "" }, w)
    pullImage := fun w _ _ => (.error (.other 7), w) }

/-- A pull request for `busybox` whose auth blob is the base64 text of
`user:pass`. -/
def pullBusyboxAs : PullImageRequest :=
  { image := some { image := "busybox" },
    auth := some { username := [], password := [],
                   auth := EncodeToString [117, 115, 101, 114, 58, 112, 97, 115, 115] } }

/-- A sandbox `bad` with its own infra container. -/
def badPod : Sandbox :=
  { pod1 with id := "bad", infraContainer := { id := "bad", name := "k8s_POD_bad" } }

/-- Collaborators that fail to remove the network namespace of the sandbox
`bad` and succeed in everything else. -/
def failing : Collab Unit :=
  { calm "running" with
    netNsRemove := fun w sb => if sb.id = "bad" then (some (.other 1), w) else (none, w) }

/-- Whether a call is the image store's `PullImage`. -/
def Event.isPullImage : Event → Bool
  | .pullImage _ _ _ => true
  | _ => false

/-! ## Base64 round trip -/

theorem decodeChar_encodeChar : ∀ i, i < 64 → decodeChar (encodeChar i) = some i := by
  decide

theorem encodeChar_ne_special :
    ∀ i, i < 64 → encodeChar i ≠ padChar ∧ encodeChar i ≠ 10 ∧ encodeChar i ≠ 13 := by
  decide

theorem encodeToString_eq_nil (bs : GoString) : EncodeToString bs = [] ↔ bs = [] := by
  match bs with
  | [] => simp [EncodeToString]
  | [_] => simp [EncodeToString]
  | [_, _] => simp [EncodeToString]
  | _ :: _ :: _ :: _ => simp [EncodeToString]

theorem padChar_ne_newline : padChar ≠ (10 : Byte) ∧ padChar ≠ (13 : Byte) := by
  decide

theorem mem_encodeToString_ne_newline (bs : GoString) :
    ∀ ch ∈ EncodeToString bs, ch ≠ 10 ∧ ch ≠ 13 := by
  induction bs using EncodeToString.induct with
  | case1 => simp [EncodeToString]
  | case2 a =>
    have ha := a.isLt
    intro ch hch
    simp only [EncodeToString, List.mem_cons, List.mem_singleton, List.not_mem_nil,
      or_false] at hch
    rcases hch with h | h | h | h
    · rw [h]; exact (encodeChar_ne_special _ (by omega)).2
    · rw [h]; exact (encodeChar_ne_special _ (by omega)).2
    · rw [h]; exact padChar_ne_newline
    · rw [h]; exact padChar_ne_newline
  | case3 a b =>
    have ha := a.isLt
    have hb := b.isLt
    intro ch hch
    simp only [EncodeToString, List.mem_cons, List.mem_singleton, List.not_mem_nil,
      or_false] at hch
    rcases hch with h | h | h | h
    · rw [h]; exact (encodeChar_ne_special _ (by omega)).2
    · rw [h]; exact (encodeChar_ne_special _ (by omega)).2
    · rw [h]; exact (encodeChar_ne_special _ (by omega)).2
    · rw [h]; exact padChar_ne_newline
  | case4 a b c rest ih =>
    have ha := a.isLt
    have hb := b.isLt
    have hc := c.isLt
    intro ch hch
    simp only [EncodeToString, List.mem_cons] at hch
    rcases hch with h | h | h | h | h
    · rw [h]; exact (encodeChar_ne_special _ (by omega)).2
    · rw [h]; exact (encodeChar_ne_special _ (by omega)).2
    · rw [h]; exact (encodeChar_ne_special _ (by omega)).2
    · rw [h]; exact (encodeChar_ne_special _ (by omega)).2
    · exact ih ch h

theorem byte_ofNat_eq (n : Nat) (x : Byte) (h : n = x.val) : (Fin.ofNat n : Byte) = x := by
  apply Fin.ext
  have hx := x.isLt
  simp only [Fin.ofNat]
  omega

theorem decodeQuanta_encodeToString (bs : GoString) :
    decodeQuanta (EncodeToString bs) = .ok bs := by
  induction bs using EncodeToString.induct with
  | case1 => simp [EncodeToString, decodeQuanta]
  | case2 a =>
    have ha := a.isLt
    simp only [EncodeToString, decodeQuanta, if_true, decodeLast]
    rw [decodeChar_encodeChar _ (by omega), decodeChar_encodeChar _ (by omega)]
    simp only [if_true]
    rw [byte_ofNat_eq _ a (by omega)]
  | case3 a b =>
    have ha := a.isLt
    have hb := b.isLt
    simp only [EncodeToString, decodeQuanta, if_true, decodeLast]
    rw [decodeChar_encodeChar _ (by omega), decodeChar_encodeChar _ (by omega)]
    simp only [(encodeChar_ne_special _ (by omega : b.val % 16 * 4 < 64)).1, if_false, if_true]
    rw [decodeChar_encodeChar _ (by omega)]
    simp only [if_true]
    rw [byte_ofNat_eq _ a (by omega), byte_ofNat_eq _ b (by omega)]
  | case4 a b c rest ih =>
    have ha := a.isLt
    have hb := b.isLt
    have hc := c.isLt
    simp only [EncodeToString, decodeQuanta]
    by_cases hrest : rest = []
    · subst hrest
      simp only [EncodeToString, if_true, decodeLast]
      rw [decodeChar_encodeChar _ (by omega), decodeChar_encodeChar _ (by omega)]
      simp only [(encodeChar_ne_special _ (by omega : b.val % 16 * 4 + c.val / 64 < 64)).1,
        (encodeChar_ne_special _ (by omega : c.val % 64 < 64)).1, if_false]
      rw [decodeChar_encodeChar _ (by omega), decodeChar_encodeChar _ (by omega)]
      simp only []
      rw [byte_ofNat_eq _ a (by omega), byte_ofNat_eq _ b (by omega),
        byte_ofNat_eq _ c (by omega)]
    · have hne : EncodeToString rest ≠ [] := fun h => hrest ((encodeToString_eq_nil rest).1 h)
      simp only [hne, if_false]
      rw [decodeChar_encodeChar _ (by omega), decodeChar_encodeChar _ (by omega),
        decodeChar_encodeChar _ (by omega), decodeChar_encodeChar _ (by omega)]
      simp only [ih]
      rw [byte_ofNat_eq _ a (by omega), byte_ofNat_eq _ b (by omega),
        byte_ofNat_eq _ c (by omega)]

/-- Decoding the standard base64 encoding of a byte string gives it back. -/
theorem decodeString_encodeToString (bs : GoString) :
    DecodeString (EncodeToString bs) = .ok bs := by
  unfold DecodeString
  have hfilter : (EncodeToString bs).filter (fun c => c ≠ 10 ∧ c ≠ 13) = EncodeToString bs := by
    apply List.filter_eq_self.2
    intro ch hch
    simpa using mem_encodeToString_ne_newline bs ch hch
  rw [hfilter]
  exact decodeQuanta_encodeToString bs

/-! ## Splitting and trimming -/

theorem span_append_cons (p : Byte → Bool) (pre post : GoString) (x : Byte)
    (hpre : ∀ y ∈ pre, p y = true) (hx : p x = false) :
    (pre ++ x :: post).span p = (pre, x :: post) := by
  induction pre with
  | nil => simp [List.span_eq_take_drop, hx]
  | cons y ys ih =>
    have hy : p y = true := hpre y (by simp)
    have ih2 := ih (fun z hz => hpre z (by simp [hz]))
    simp only [List.span_eq_take_drop, Prod.mk.injEq] at ih2 ⊢
    simp [hy, ih2.1, ih2.2]

theorem splitN_two (sep : Byte) (pre post : GoString) (h : sep ∉ pre) :
    SplitN (pre ++ sep :: post) sep 2 = [pre, post] := by
  have hspan : (pre ++ sep :: post).span (fun c => c ≠ sep) = (pre, sep :: post) := by
    apply span_append_cons
    · intro y hy
      have : y ≠ sep := fun e => h (e ▸ hy)
      simpa using this
    · simp
  simp only [SplitN]
  rw [hspan]

theorem rdropWhile_append_replicate (cut : Byte) (s : GoString) (k : Nat)
    (hlast : s.getLast? ≠ some cut) :
    (s ++ List.replicate k cut).rdropWhile (fun c => c = cut) = s := by
  induction k with
  | zero =>
    simp only [List.replicate_zero, List.append_nil]
    rw [List.rdropWhile_eq_self_iff]
    intro hl
    rw [List.getLast?_eq_getLast _ hl] at hlast
    simpa using fun e => hlast (by rw [e])
  | succ n ih =>
    rw [List.replicate_succ', ← List.append_assoc, List.rdropWhile_concat_pos _ _ _ (by simp)]
    exact ih

theorem dropWhile_append_replicate (cut : Byte) (s : GoString) (k : Nat)
    (hhead : s.head? ≠ some cut) :
    (s ++ List.replicate k cut).dropWhile (fun c => c = cut) =
      if s = [] then [] else s ++ List.replicate k cut := by
  cases s with
  | nil =>
    simp only [List.nil_append, if_true]
    rw [List.dropWhile_eq_nil_iff]
    intro x hx
    simp [(List.mem_replicate.1 hx).2]
  | cons x xs =>
    have hx : x ≠ cut := fun e => hhead (by simp [e])
    simp [List.dropWhile_cons, hx]

theorem trim_append_replicate (cut : Byte) (s : GoString) (k : Nat)
    (hhead : s.head? ≠ some cut) (hlast : s.getLast? ≠ some cut) :
    Trim (s ++ List.replicate k cut) cut = s := by
  unfold Trim
  rw [dropWhile_append_replicate cut s k hhead]
  by_cases hs : s = []
  · simp [hs]
  · simp only [hs, if_false]
    exact rdropWhile_append_replicate cut s k hlast

/-! ## Claims about `decodeDockerAuth` -/

/-- C9: for a user name without a colon, a password that neither starts nor ends
with a NUL byte (it may contain colons) and any number `k` of NUL bytes,
`decodeDockerAuth` of the standard base64 encoding of
`username ++ ":" ++ password ++ k NUL bytes` is `(username, password)` with no
error. -/
theorem decodeDockerAuth_encoded_credentials (username password : GoString) (k : Nat)
    (huser : colon ∉ username) (hhead : password.head? ≠ some nul)
    (hlast : password.getLast? ≠ some nul) :
    decodeDockerAuth
        (EncodeToString (username ++ [colon] ++ password ++ List.replicate k nul)) =
      (username, password, none) := by
  unfold decodeDockerAuth
  rw [decodeString_encodeToString]
  have hsplit : SplitN (username ++ [colon] ++ password ++ List.replicate k nul) colon 2 =
      [username, password ++ List.replicate k nul] := by
    have := splitN_two colon username (password ++ List.replicate k nul) huser
    simpa [List.append_assoc] using this
  simp only [hsplit]
  rw [trim_append_replicate nul password k hhead hlast]

/-- C9 at `"user:pa:ss"` followed by two NUL bytes. -/
theorem decodeDockerAuth_encoded_credentials_witness :
    decodeDockerAuth
        (EncodeToString (([117, 115, 101, 114] : GoString) ++ [colon] ++
          [112, 97, 58, 115, 115] ++ List.replicate 2 nul)) =
      ([117, 115, 101, 114], [112, 97, 58, 115, 115], none) :=
  decodeDockerAuth_encoded_credentials [117, 115, 101, 114] [112, 97, 58, 115, 115] 2
    (by decide) (by decide) (by decide)

/-! ## Claims about `PullImage` -/

/-- A request whose auth blob does not decode is refused with the decoding
error before any collaborator is called. -/
theorem PullImage_auth_decode_error {W : Type} (k : Collab W) (req : PullImageRequest) (w : W)
    (username password : GoString) (err : Err)
    (h : requestCredentials req = (username, password, some err)) :
    (PullImage k req w).result = .error err ∧ (PullImage k req w).trace = [] := by
  unfold PullImage
  simp [h]

/-- C1: in a run of `PullImage` where the `CanPull` gate is passed, `ImageStatus`
answers with a stored image whose config digest is a non-empty `D` and
`PrepareImage` answers with a prepared image whose config digest is `D`, the
image store's `PullImage` is not called and the response carries the requested
reference, without error. -/
theorem PullImage_skips_pull_on_equal_digest {W : Type} (k : Collab W) (req : PullImageRequest)
    (w : W) (D : String) (options options2 : CopyOptions) (allowed : Bool)
    (gateErr : Option Err) (stored : ImageResult) (tmp : PreparedImage)
    (hgate : Event.canPull (requestImage req) options allowed gateErr ∈ (PullImage k req w).trace)
    (hpass : ¬ (gateErr ≠ none ∧ allowed = false))
    (hstatus : Event.imageStatus (requestImage req) (.ok stored) ∈ (PullImage k req w).trace)
    (hstored : stored.configDigest = D) (hD : D ≠ "")
    (hprep : Event.prepareImage (requestImage req) options2 (.ok tmp) ∈ (PullImage k req w).trace)
    (htmp : tmp.configInfoDigest = D) :
    (PullImage k req w).result = .ok { imageRef := requestImage req } ∧
      ∀ image opts res, Event.pullImage image opts res ∉ (PullImage k req w).trace := by
  subst hstored
  revert hgate hstatus hprep
  unfold PullImage pullAndRespond
  simp only []
  repeat' split
  all_goals simp
  all_goals (intros; subst_vars; try simp_all)
  all_goals (intro h; subst h; simp_all)

/-- C1 at a pull of `busybox` whose stored and prepared config digests are both
`sha256:d`. -/
theorem PullImage_skips_pull_on_equal_digest_witness :
    Event.imageStatus "busybox" (.ok { id := "img", configDigest := "sha256:d" }) ∈
        (PullImage (calm "running") pullBusybox ()).trace ∧
      Event.prepareImage "busybox" noAuth (.ok { configInfoDigest := "sha256:d" }) ∈
        (PullImage (calm "running") pullBusybox ()).trace ∧
      ((PullImage (calm "running") pullBusybox ()).result = .ok { imageRef := "busybox" } ∧
        ∀ image opts res,
          Event.pullImage image opts res ∉ (PullImage (calm "running") pullBusybox ()).trace) :=
  ⟨by decide, by decide,
    PullImage_skips_pull_on_equal_digest (calm "running") pullBusybox () "sha256:d" noAuth noAuth
      true none { id := "img", configDigest := "sha256:d" } { configInfoDigest := "sha256:d" }
      (by decide) (by decide) (by decide) rfl (by decide) (by decide) rfl⟩

/-- C8: for a request whose credentials resolve (a request whose auth blob does
not decode makes no `CanPull` call at all), when `CanPull` does not reject,
`ImageStatus` answers with any stored image and `PrepareImage` answers with a
prepared image whose config digest is empty, `PullImage` makes exactly the calls
`CanPull`, `ImageStatus`, `PrepareImage` and then one `PullImage` of the image
store, whatever the stored digest (an empty one included); its result is the
requested reference when the store's pull succeeds and the store's own error
when it fails, and it leaves the world the pull left. -/
theorem PullImage_repulls_on_empty_digest {W : Type} (k : Collab W) (req : PullImageRequest)
    (w w1 w2 w3 : W) (username password : GoString) (allowed : Bool) (gateErr : Option Err)
    (stored : ImageResult) (tmp : PreparedImage)
    (hcred : requestCredentials req = (username, password, none))
    (hgate : k.canPull w (requestImage req) (pullOptions username password) =
      ((allowed, gateErr), w1))
    (hpass : ¬ (gateErr ≠ none ∧ allowed = false))
    (hstatus : k.imageStatus w1 (requestImage req) = (.ok stored, w2))
    (hprep : k.prepareImage w2 (requestImage req) (pullOptions username password) =
      (.ok tmp, w3))
    (htmp : tmp.configInfoDigest = "") :
    (PullImage k req w).trace =
        [Event.canPull (requestImage req) (pullOptions username password) allowed gateErr,
         Event.imageStatus (requestImage req) (.ok stored),
         Event.prepareImage (requestImage req) (pullOptions username password) (.ok tmp),
         Event.pullImage (requestImage req) (pullOptions username password)
           (k.pullImage w3 (requestImage req) (pullOptions username password)).1] ∧
      (PullImage k req w).trace.countP Event.isPullImage = 1 ∧
      (PullImage k req w).result =
        (match (k.pullImage w3 (requestImage req) (pullOptions username password)).1 with
         | .ok _ => .ok { imageRef := requestImage req }
         | .error err => .error err) ∧
      (PullImage k req w).world =
        (k.pullImage w3 (requestImage req) (pullOptions username password)).2 := by
  have hrun : PullImage k req w =
      pullAndRespond k (requestImage req) (pullOptions username password)
        [Event.canPull (requestImage req) (pullOptions username password) allowed gateErr,
         Event.imageStatus (requestImage req) (.ok stored),
         Event.prepareImage (requestImage req) (pullOptions username password) (.ok tmp)] w3 := by
    unfold PullImage
    simp only [hcred, hgate, hstatus, hprep, htmp, if_true]
    cases gateErr <;> cases allowed <;>
      first
        | rfl
        | exact absurd ⟨by simp, rfl⟩ hpass
  rw [hrun]
  unfold pullAndRespond
  split <;> rename_i h <;> simp [h, Event.isPullImage]

/-- C8 at a pull of `busybox` with the credentials `user:pass` from a store
whose stored and prepared config digests are both empty and whose pull fails
with error 7: one pull is made and error 7 is returned. -/
theorem PullImage_repulls_on_empty_digest_witness :
    requestCredentials pullBusyboxAs = ([117, 115, 101, 114], [112, 97, 115, 115], none) ∧
      (PullImage schema1Store pullBusyboxAs ()).trace.countP Event.isPullImage = 1 ∧
      (PullImage schema1Store pullBusyboxAs ()).result = .error (.other 7) :=
  ⟨by decide,
    (PullImage_repulls_on_empty_digest schema1Store pullBusyboxAs () () () ()
      [117, 115, 101, 114] [112, 97, 115, 115] true none { id := "img", configDigest := "" }
      { configInfoDigest := "" } (by decide) rfl (by decide) rfl rfl rfl).2.1,
    (PullImage_repulls_on_empty_digest schema1Store pullBusyboxAs () () () ()
      [117, 115, 101, 114] [112, 97, 115, 115] true none { id := "img", configDigest := "" }
      { configInfoDigest := "" } (by decide) rfl (by decide) rfl rfl rfl).2.2.1⟩

/-! ## Claims about `networkStart` and `networkStop` -/

/-- C3: outside host-network mode `networkStop` calls `HostportManager.Remove`
and then `NetworkManager.TearDownPod`, once each, and returns no error whatever
the two calls answer; in host-network mode it calls nothing and returns no
error. -/
theorem networkStop_best_effort {W : Type} (k : Collab W) (sb : Sandbox) (w : W) :
    (networkStop k false sb w).result = none ∧
      (networkStop k false sb w).trace =
        [Event.hostportRemove sb.id
            { name := sb.name, portMappings := sb.portMappings, ip := none,
              hostNetwork := false }
            (k.hostportRemove w sb.id
              { name := sb.name, portMappings := sb.portMappings, ip := none,
                hostNetwork := false }).1,
          Event.tearDownPod sb.netNsPath sb.ns sb.kubeName sb.id
            (k.tearDownPod
              (k.hostportRemove w sb.id
                { name := sb.name, portMappings := sb.portMappings, ip := none,
                  hostNetwork := false }).2
              sb.netNsPath sb.ns sb.kubeName sb.id).1] ∧
      (networkStop k true sb w).result = none ∧
      (networkStop k true sb w).trace = [] ∧
      (networkStop k true sb w).world = w := by
  simp [networkStop]

/-- Outside host-network mode a successful `networkStart` returns the empty
string, whatever address the network status reported. -/
theorem networkStart_ok_is_empty {W : Type} (k : Collab W) (s : Server) (sb : Sandbox) (w : W)
    (ip : String) (h : (networkStart k s false sb w).result = .ok ip) : ip = "" := by
  revert h
  unfold networkStart
  simp only [Bool.false_eq_true, if_false]
  repeat' split
  all_goals simp
  all_goals (intro h; exact h.symm)

/-- C7 (the code differs): for the sandbox `pod1`, which has one port mapping,
with `SetUpPod` succeeding, a network status of `10.0.0.5` that parses as IPv4
and `Add` succeeding, `networkStart` returns the empty string and not
`10.0.0.5`; in host-network mode it returns the bind address. -/
theorem networkStart_returns_empty_ip :
    (networkStart (calm "running") server1 false pod1 ()).result = .ok "" ∧
      (networkStart (calm "running") server1 false pod1 ()).trace =
        [Event.setUpPod pod1.netNsPath pod1.ns pod1.kubeName pod1.id none,
         Event.getContainerNetworkStatus pod1.netNsPath pod1.ns pod1.id pod1.name
           (.ok "10.0.0.5"),
         Event.hostportAdd pod1.id
           { name := pod1.name, portMappings := pod1.portMappings, ip := some [10, 0, 0, 5],
             hostNetwork := false } "lo" none] ∧
      (networkStart (calm "running") server1 true pod1 ()).result = .ok "127.0.0.1" ∧
      (networkStart (calm "running") server1 true pod1 ()).trace = [] := by
  decide

/-! ## Claims about `StopPodSandbox` -/

/-- C2: when the sandbox lookup fails, `StopPodSandbox` returns an error exactly
when the request's sandbox ID is empty; for any other ID it returns the empty
response; in both cases it calls no collaborator and leaves the world as it
is. -/
theorem StopPodSandbox_lookup_failure {W : Type} (k : Collab W) (s : Server)
    (req : StopPodSandboxRequest) (w : W) (err : Err)
    (hlookup : getPodSandboxFromRequest s req.podSandboxId = .error err) :
    ((∃ e, (StopPodSandbox k s req w).result = .error e) ↔ req.podSandboxId = "") ∧
      (req.podSandboxId ≠ "" → (StopPodSandbox k s req w).result = .ok {}) ∧
      (StopPodSandbox k s req w).trace = [] ∧ (StopPodSandbox k s req w).world = w := by
  unfold StopPodSandbox
  rw [hlookup]
  unfold getPodSandboxFromRequest at hlookup
  by_cases hid : req.podSandboxId = ""
  · simp [hid] at hlookup
    subst hlookup
    simp [hid]
  · simp only [hid, if_false] at hlookup
    split at hlookup
    · cases hlookup
    · cases hlookup
      simp [hid]

/-- C2 at a stop of the unknown sandbox `gone`. -/
theorem StopPodSandbox_lookup_failure_witness :
    getPodSandboxFromRequest server1 "gone" =
        .error (.errorf "specified sandbox not found: %s" ["gone"]) ∧
      (StopPodSandbox (calm "running") server1 { podSandboxId := "gone" } ()).result = .ok {} ∧
      (StopPodSandbox (calm "running") server1 { podSandboxId := "gone" } ()).trace = [] :=
  ⟨by decide,
    (StopPodSandbox_lookup_failure (calm "running") server1 { podSandboxId := "gone" } ()
      (.errorf "specified sandbox not found: %s" ["gone"]) (by decide)).2.1 (by decide),
    (StopPodSandbox_lookup_failure (calm "running") server1 { podSandboxId := "gone" } ()
      (.errorf "specified sandbox not found: %s" ["gone"]) (by decide)).2.2.1⟩

theorem stopContainers_no_infra_storage_stop {W : Type} (k : Collab W) (sb : Sandbox)
    (infra : Container) (cs : List Container) (w : W) (err : Option Err) :
    Event.storageStopContainer infra.id err ∉ (stopContainers k sb infra cs w).trace := by
  induction cs generalizing w with
  | nil => simp [stopContainers]
  | cons c rest ih =>
    unfold stopContainers
    simp only []
    repeat' split
    all_goals simp [ih]
    all_goals (intro h; simp_all)

theorem networkStop_no_storage_stop {W : Type} (k : Collab W) (hostNetwork : Bool)
    (sb : Sandbox) (w : W) (id : String) (err : Option Err) :
    Event.storageStopContainer id err ∉ (networkStop k hostNetwork sb w).trace := by
  unfold networkStop
  split <;> simp

theorem unmountShm_no_storage_stop {W : Type} (k : Collab W) (sb : Sandbox) (w : W)
    (id : String) (err : Option Err) :
    Event.storageStopContainer id err ∉ (unmountShm k sb w).trace := by
  unfold unmountShm
  repeat' split
  all_goals simp

theorem eq_last_of_not_mem {α : Type} (T pre post : List α) (e x : α) (hT : e ∉ T)
    (h : pre ++ e :: post = T ++ [x]) : post = [] ∧ e = x := by
  rcases List.eq_nil_or_concat post with hp | ⟨post1, y, hp⟩
  · subst hp
    have h2 : pre ++ [e] = T ++ [x] := h
    have h3 := List.append_inj' h2 rfl
    exact ⟨rfl, by simpa using h3.2⟩
  · subst hp
    have h2 : (pre ++ e :: post1) ++ [y] = T ++ [x] := by simpa using h
    have h3 := List.append_inj' h2 rfl
    exact absurd (by rw [← h3.1]; simp) hT

/-- C5: for a sandbox found by the lookup, the container loop of
`StopPodSandbox` never calls the storage layer's `StopContainer` with the infra
container's ID, from whatever world it starts; and a storage `StopContainer`
call with that ID anywhere in the run of `StopPodSandbox` is the last call of
the run, the one made with the sandbox ID after the loop. -/
theorem StopPodSandbox_infra_storage_stop {W : Type} (k : Collab W) (s : Server)
    (req : StopPodSandboxRequest) (w : W) (sb : Sandbox)
    (hsb : getPodSandboxFromRequest s req.podSandboxId = .ok sb) :
    (∀ (w1 : W) (err : Option Err), Event.storageStopContainer sb.infraContainer.id err ∉
        (stopContainers k sb sb.infraContainer (containersToStop sb) w1).trace) ∧
      (∀ (pre post : List Event) (err : Option Err),
        (StopPodSandbox k s req w).trace =
            pre ++ Event.storageStopContainer sb.infraContainer.id err :: post →
          post = [] ∧ sb.infraContainer.id = sb.id) := by
  refine ⟨fun w1 err => stopContainers_no_infra_storage_stop k sb _ _ w1 err, ?_⟩
  intro pre post err
  unfold StopPodSandbox
  rw [hsb]
  simp only []
  have hnet := networkStop_no_storage_stop k (decide (sb.netNsPath = "")) sb w
    sb.infraContainer.id err
  have hloop := fun w1 => stopContainers_no_infra_storage_stop k sb sb.infraContainer
    (containersToStop sb) w1 err
  have hshm := fun w1 => unmountShm_no_storage_stop k sb w1 sb.infraContainer.id err
  have hmem : ∀ (T : List Event), Event.storageStopContainer sb.infraContainer.id err ∉ T →
      T = pre ++ Event.storageStopContainer sb.infraContainer.id err :: post → False := by
    intro T hT h
    exact hT (by rw [h]; simp)
  repeat' split
  · intro h
    exact (hmem _ (by simp [hnet]) h).elim
  · intro h
    exact (hmem _ (by simp [hnet, hloop]) h).elim
  · intro h
    exact (hmem _ (by simp [hnet, hloop]) h).elim
  · intro h
    exact (hmem _ (by simp [hnet, hloop, hshm]) h).elim
  · intro h
    have h2 := eq_last_of_not_mem _ pre post _ _ (by simp [hnet, hloop, hshm]) h.symm
    have h3 := h2.2
    simp only [Event.storageStopContainer.injEq] at h3
    exact ⟨h2.1, h3.1⟩

/-- C5 at a stop of `pod1` with running containers: the loop makes no storage
stop of the infra container `pod1`, and the run has a single such call. -/
theorem StopPodSandbox_infra_storage_stop_witness :
    getPodSandboxFromRequest server1 "pod1" = .ok pod1 ∧
      (∀ err : Option Err, Event.storageStopContainer "pod1" err ∉
        (stopContainers (calm "running") pod1 infraC (containersToStop pod1) ()).trace) ∧
      ((StopPodSandbox (calm "running") server1 { podSandboxId := "pod1" } ()).trace.filter
        (fun e => e = Event.storageStopContainer "pod1" none)).length = 1 :=
  ⟨by decide,
    fun err => (StopPodSandbox_infra_storage_stop (calm "running") server1
      { podSandboxId := "pod1" } () pod1 (by decide)).1 () err,
    by decide⟩

/-- C4 (the code differs): stopping `pod1` while its containers are running
succeeds, the infra container is in the iterated collection and is stopped by
the runtime, the regular container's state is written to disk, but
`containerStateToDisk` is not called for the infra container; it is called for
it when the infra container was already stopped. -/
theorem StopPodSandbox_running_infra_not_persisted :
    (StopPodSandbox (calm "running") server1 { podSandboxId := "pod1" } ()).result = .ok {} ∧
      infraC ∈ containersToStop pod1 ∧
      Event.runtimeStopContainer infraC (-1) none ∈
        (StopPodSandbox (calm "running") server1 { podSandboxId := "pod1" } ()).trace ∧
      Event.containerStateToDisk appC ∈
        (StopPodSandbox (calm "running") server1 { podSandboxId := "pod1" } ()).trace ∧
      Event.containerStateToDisk infraC ∉
        (StopPodSandbox (calm "running") server1 { podSandboxId := "pod1" } ()).trace ∧
      Event.containerStateToDisk infraC ∈
        (StopPodSandbox (calm "stopped") server1 { podSandboxId := "pod1" } ()).trace := by
  decide

/-- C6 (counterexample): the container list of `pod2` already holds its infra
container, and the collection `StopPodSandbox` iterates over holds it twice. -/
theorem containersToStop_infra_twice :
    pod2.infraContainer ∈ pod2.containers ∧
      (containersToStop pod2).count pod2.infraContainer = 2 ∧
      (containersToStop pod2).count pod2.infraContainer ≠ 1 := by
  decide

/-- C6 (amended): the collection `StopPodSandbox` iterates over holds the infra
container once more than the sandbox's container list does; it holds it exactly
once if and only if the container list does not hold it. -/
theorem containersToStop_count (sb : Sandbox) :
    (containersToStop sb).count sb.infraContainer = sb.containers.count sb.infraContainer + 1 ∧
      ((containersToStop sb).count sb.infraContainer = 1 ↔
        sb.infraContainer ∉ sb.containers) := by
  have h : (containersToStop sb).count sb.infraContainer =
      sb.containers.count sb.infraContainer + 1 := by
    simp [containersToStop, List.count_append]
  refine ⟨h, ?_⟩
  rw [h]
  simp [List.count_eq_zero]

/-! ## Claims about `StopAllPodSandboxes` -/

theorem stopAllLoop_ids {W : Type} (k : Collab W) (s : Server) (sbs : List Sandbox) (w : W) :
    (stopAllLoop k s sbs w).result.map (fun c => c.podSandboxId) = sbs.map (fun sb => sb.id) := by
  induction sbs generalizing w with
  | nil => simp [stopAllLoop]
  | cons sb rest ih => simp [stopAllLoop, ih]

theorem stopAllLoop_foldl {W : Type} (k : Collab W) (s : Server) (sbs : List Sandbox)
    (acc : Run W (List StopCall)) :
    sbs.foldl
        (fun (a : Run W (List StopCall)) sb =>
          { result := a.result ++
              [{ podSandboxId := sb.id,
                 result := (StopPodSandbox k s { podSandboxId := sb.id } a.world).result }],
            world := (StopPodSandbox k s { podSandboxId := sb.id } a.world).world,
            trace := a.trace ++ (StopPodSandbox k s { podSandboxId := sb.id } a.world).trace })
        acc =
      { result := acc.result ++ (stopAllLoop k s sbs acc.world).result,
        world := (stopAllLoop k s sbs acc.world).world,
        trace := acc.trace ++ (stopAllLoop k s sbs acc.world).trace } := by
  induction sbs generalizing acc with
  | nil => simp [stopAllLoop]
  | cons sb rest ih =>
    rw [List.foldl_cons, ih]
    simp [stopAllLoop]

/-- C10: whatever the collaborators answer, `StopAllPodSandboxes` is the run
that goes through the sandboxes of the store one after the other and, for each,
runs `StopPodSandbox` with that sandbox's ID in the world the previous call
left: its collaborator calls are the calls of these runs in order, its final
world is the one the last run leaves, and the calls it made are one per sandbox
of the store, each with the result `StopPodSandbox` gave there. An error of one
run stops nothing, and the operation itself has no error to return. -/
theorem StopAllPodSandboxes_stops_every_sandbox {W : Type} (k : Collab W) (s : Server) (w : W) :
    StopAllPodSandboxes k s w =
        s.sandboxes.foldl
          (fun (a : Run W (List StopCall)) sb =>
            { result := a.result ++
                [{ podSandboxId := sb.id,
                   result := (StopPodSandbox k s { podSandboxId := sb.id } a.world).result }],
              world := (StopPodSandbox k s { podSandboxId := sb.id } a.world).world,
              trace := a.trace ++ (StopPodSandbox k s { podSandboxId := sb.id } a.world).trace })
          { result := [], world := w, trace := [] } ∧
      (StopAllPodSandboxes k s w).result.map (fun c => c.podSandboxId) =
        s.sandboxes.map (fun sb => sb.id) := by
  refine ⟨?_, stopAllLoop_ids k s s.sandboxes w⟩
  rw [stopAllLoop_foldl]
  simp [StopAllPodSandboxes]

/-- With a store holding `bad` and `pod1`, where the stop of `bad` fails on the
removal of its network namespace, the stop of `pod1` is still run in full. -/
theorem StopAllPodSandboxes_continues_after_error :
    (StopAllPodSandboxes failing { bindAddress := "127.0.0.1", sandboxes := [badPod, pod1] }
        ()).result =
      [{ podSandboxId := "bad", result := .error (.other 1) },
       { podSandboxId := "pod1", result := .ok {} }] ∧
    (StopAllPodSandboxes failing { bindAddress := "127.0.0.1", sandboxes := [badPod, pod1] }
        ()).trace =
      (StopPodSandbox failing { bindAddress := "127.0.0.1", sandboxes := [badPod, pod1] }
        { podSandboxId := "bad" } ()).trace ++
      (StopPodSandbox failing { bindAddress := "127.0.0.1", sandboxes := [badPod, pod1] }
        { podSandboxId := "pod1" } ()).trace ∧
    Event.storageStopContainer "pod1" none ∈
      (StopAllPodSandboxes failing { bindAddress := "127.0.0.1", sandboxes := [badPod, pod1] }
        ()).trace := by
  decide

end Crio


